import Mathlib

/-!
Verification of the StageAssets backend core: the submission versioning and
completion-tracking engine (`SubmissionsService`) and the reminder delivery
pipeline (`RemindersService`, `ReminderProcessor`).  Database tables are
embedded as lists of rows, services as pure state-transition functions, and
JavaScript truthiness on nullable columns is made explicit.
-/

set_option maxHeartbeats 1000000

namespace StageAssets


/-- JS truthiness of a nullable number column: `null` and `0` are falsy. -/

def truthyNat : Option Nat → Bool
  | none => false
  | some n => n != 0

/-- JS truthiness of a nullable string column: `null` and `''` are falsy. -/

def truthyStr : Option String → Bool
  | none => false
  | some s => !s.isEmpty

/-- JS `x || d` on an optional string: the default is used when `x` is falsy. -/

def orElseStr (x : Option String) (d : String) : String :=
  if truthyStr x then x.getD ("") else d

/-- `submission_status` enum: 'pending' | 'partial' | 'complete'.
The 'partial' value is named `partway` here. -/

inductive SpeakerStatus
  | pending
  | partway
  | complete
deriving DecidableEq

/-- `reminder_status` enum: 'pending' | 'sent' | 'failed'. -/

inductive ReminderStatus
  | pending
  | sent
  | failed
deriving DecidableEq

/-- Row of the `asset_requirements` table (validation-relevant columns). -/

structure AssetRequirement where
  id : Nat
  eventId : Nat
  isRequired : Bool
  acceptedFileTypes : Option (List String)
  maxFileSizeMb : Option Nat
  minImageWidth : Option Nat
  minImageHeight : Option Nat
deriving DecidableEq

/-- Row of the `submissions` table (columns used by the services). -/

structure Submission where
  id : Nat
  speakerId : Nat
  assetRequirementId : Nat
  fileName : String
  fileSize : Nat
  mimeType : String
  imageWidth : Option Nat
  imageHeight : Option Nat
  version : Nat
  replacesSubmissionId : Option Nat
  isLatest : Bool
deriving DecidableEq

/-- `CreateSubmissionDto`: the payload of `SubmissionsService.create`. -/

structure CreateSubmissionDto where
  assetRequirementId : Nat
  fileName : String
  fileSize : Nat
  mimeType : String
  imageWidth : Option Nat
  imageHeight : Option Nat
deriving DecidableEq

/-- Row of the `speakers` table (columns used by the services). -/

structure Speaker where
  id : Nat
  eventId : Nat
  email : String
  firstName : Option String
  lastName : Option String
  accessToken : String
  submissionStatus : SpeakerStatus
  submittedAt : Option Nat
  reminderCount : Nat
  lastReminderSentAt : Option Nat
deriving DecidableEq

/-- Row of the `events` table (columns used by the reminder services). -/

structure Event where
  id : Nat
  userId : Nat
  name : String
  deadline : Nat
deriving DecidableEq

/-- Row of the `reminders` table. -/

structure Reminder where
  id : Nat
  speakerId : Nat
  eventId : Nat
  status : ReminderStatus
  scheduledFor : Nat
  sentAt : Option Nat
  emailSubject : Option String
  emailBody : Option String
  errorMessage : Option String
deriving DecidableEq

/-- `Date.toLocaleDateString()` on the embedded timestamp. -/

def formatDate (d : Nat) : String := toString d

/-! ## Submission validation (`SubmissionsService.validateSubmission`) -/

/-- Message pushed when the file size exceeds the requirement's limit. -/

def fileSizeMessage (requirement : AssetRequirement) : String :=
  "File size exceeds maximum allowed size of " ++
    toString (requirement.maxFileSizeMb.getD 0) ++ "MB"

/-- Message pushed when the file extension is not among the accepted types. -/

def fileTypeMessage (acceptedTypes : List String) : String :=
  "File type not accepted. Allowed types: " ++ String.intercalate (", ") acceptedTypes

/-- Message pushed when the image width is below the requirement's minimum. -/

def widthMessage (w mw : Nat) : String :=
  "Image width (" ++ toString w ++ "px) is below minimum required width of " ++
    toString mw ++ "px"

/-- Message pushed when the image height is below the requirement's minimum. -/

def heightMessage (h mh : Nat) : String :=
  "Image height (" ++ toString h ++ "px) is below minimum required height of " ++
    toString mh ++ "px"

/-- Message pushed when dimensions are required but missing on an image upload. -/

def dimensionsRequiredMessage (requirement : AssetRequirement) : String :=
  "Image dimensions are required. Minimum dimensions: " ++
    toString (requirement.minImageWidth.getD 0) ++ "x" ++
    toString (requirement.minImageHeight.getD 0) ++ "px"

/-- The characters after the last dot (the final segment of
`fileName.split('.')`; the whole name when there is no dot). -/

def lastDotSegment : List Char → List Char → List Char
  | [], acc => acc
  | c :: rest, acc =>
    if c = ('.' : Char) then lastDotSegment rest []
    else lastDotSegment rest (acc ++ [c])

/-- `'.' + fileName.split('.').pop()?.toLowerCase()`, computed on the
character list (ASCII lower-casing, as `toLowerCase` does on extensions). -/

def fileExtensionOf (fileName : String) : String :=
  "." ++ String.mk ((lastDotSegment fileName.data []).map Char.toLower)

/-- `mimeType.startsWith('image/')`, computed on the character list. -/

def startsWithImage (mimeType : String) : Bool :=
  ("image/").data.isPrefixOf mimeType.data

/-- Errors collected by the file-size rule of `validateSubmission`. -/

def sizeErrors (submission : CreateSubmissionDto) (requirement : AssetRequirement) :
    List String :=
  if truthyNat requirement.maxFileSizeMb &&
      decide (submission.fileSize > requirement.maxFileSizeMb.getD 0 * 1024 * 1024) then
    [fileSizeMessage requirement]
  else []

/-- Errors collected by the file-type rule of `validateSubmission`. -/

def typeErrors (submission : CreateSubmissionDto) (requirement : AssetRequirement) :
    List String :=
  match requirement.acceptedFileTypes with
  | none => []
  | some acceptedTypes =>
    if acceptedTypes.contains (fileExtensionOf submission.fileName) then []
    else [fileTypeMessage acceptedTypes]

/-- Errors collected by the image-dimension rules of `validateSubmission`:
when both dimensions are (truthily) present each minimum is checked
separately; otherwise, if some minimum is configured and the upload is an
image, a single dimensions-required error is pushed. -/

def dimensionErrors (submission : CreateSubmissionDto) (requirement : AssetRequirement) :
    List String :=
  if truthyNat submission.imageWidth && truthyNat submission.imageHeight then
    (if truthyNat requirement.minImageWidth &&
        decide (submission.imageWidth.getD 0 < requirement.minImageWidth.getD 0) then
      [widthMessage (submission.imageWidth.getD 0) (requirement.minImageWidth.getD 0)]
    else []) ++
    (if truthyNat requirement.minImageHeight &&
        decide (submission.imageHeight.getD 0 < requirement.minImageHeight.getD 0) then
      [heightMessage (submission.imageHeight.getD 0) (requirement.minImageHeight.getD 0)]
    else [])
  else if truthyNat requirement.minImageWidth || truthyNat requirement.minImageHeight then
    if startsWithImage submission.mimeType then
      [dimensionsRequiredMessage requirement]
    else []
  else []

/-- `SubmissionsService.validateSubmission`: the accumulated list of violated
rules, in the order the source pushes them. -/

def validateSubmission (submission : CreateSubmissionDto) (requirement : AssetRequirement) :
    List String :=
  sizeErrors submission requirement ++ typeErrors submission requirement ++
    dimensionErrors submission requirement

/-- The file-size rule is violated. -/

def sizeViolation (submission : CreateSubmissionDto) (requirement : AssetRequirement) :
    Bool :=
  truthyNat requirement.maxFileSizeMb &&
    decide (submission.fileSize > requirement.maxFileSizeMb.getD 0 * 1024 * 1024)

/-- The file-type rule is violated. -/

def typeViolation (submission : CreateSubmissionDto) (requirement : AssetRequirement) :
    Bool :=
  match requirement.acceptedFileTypes with
  | none => false
  | some acceptedTypes => !(acceptedTypes.contains (fileExtensionOf submission.fileName))

/-- The minimum-width rule is violated (dimensions present). -/

def widthViolation (submission : CreateSubmissionDto) (requirement : AssetRequirement) :
    Bool :=
  (truthyNat submission.imageWidth && truthyNat submission.imageHeight) &&
    (truthyNat requirement.minImageWidth &&
      decide (submission.imageWidth.getD 0 < requirement.minImageWidth.getD 0))

/-- The minimum-height rule is violated (dimensions present). -/

def heightViolation (submission : CreateSubmissionDto) (requirement : AssetRequirement) :
    Bool :=
  (truthyNat submission.imageWidth && truthyNat submission.imageHeight) &&
    (truthyNat requirement.minImageHeight &&
      decide (submission.imageHeight.getD 0 < requirement.minImageHeight.getD 0))

/-- The dimensions-required rule is violated (an image upload without
dimensions while a minimum is configured). -/

def missingDimensionsViolation (submission : CreateSubmissionDto)
    (requirement : AssetRequirement) : Bool :=
  (!(truthyNat submission.imageWidth && truthyNat submission.imageHeight)) &&
    ((truthyNat requirement.minImageWidth || truthyNat requirement.minImageHeight) &&
      startsWithImage submission.mimeType)

/-- A requirement constraining type, size and image dimensions. -/

def strictRequirement : AssetRequirement :=
  { id := 1
    eventId := 1
    isRequired := true
    acceptedFileTypes := some ([".png"])
    maxFileSizeMb := some 10
    minImageWidth := some 100
    minImageHeight := some 100 }

/-- A payload violating both the size and the type rule at once. -/

def oversizedDto : CreateSubmissionDto :=
  { assetRequirementId := 1
    fileName := "huge.pdf"
    fileSize := 10485761
    mimeType := "application/pdf"
    imageWidth := none
    imageHeight := none }

/-! ## The submission ledger (`SubmissionsService.create` / `delete`) -/

/-- Errors raised by `SubmissionsService.create` and `delete`. -/

inductive SubmissionError
  | notFound
  | validation (messages : List String)
deriving DecidableEq

/-- Persistent state touched by the submissions service: the
`asset_requirements` and `submissions` tables plus the serial id counter. -/

structure LedgerState where
  assetRequirements : List AssetRequirement
  submissions : List Submission
  nextId : Nat
deriving DecidableEq

/-- Whether a row belongs to the (speakerId, assetRequirementId) pair. -/

def matchesPair (speakerId assetRequirementId : Nat) (s : Submission) : Bool :=
  s.speakerId == speakerId && s.assetRequirementId == assetRequirementId

/-- The `isLatest = true` lookup of `create` (first matching row, whole-table
scan, mirroring the `limit(1)` select). -/

def findLatest (subs : List Submission) (speakerId assetRequirementId : Nat) :
    Option Submission :=
  subs.find? (fun s => matchesPair speakerId assetRequirementId s && s.isLatest)

/-- One row after the `update ... set isLatest = false` statement. -/

def clearRow (speakerId assetRequirementId : Nat) (s : Submission) : Submission :=
  if matchesPair speakerId assetRequirementId s then { s with isLatest := false } else s

/-- The `update ... set isLatest = false where pair matches` statement. -/

def clearLatest (subs : List Submission) (speakerId assetRequirementId : Nat) :
    List Submission :=
  subs.map (clearRow speakerId assetRequirementId)

/-- All rows of the pair, in table order (the version-count select). -/

def pairRows (subs : List Submission) (speakerId assetRequirementId : Nat) :
    List Submission :=
  subs.filter (matchesPair speakerId assetRequirementId)

/-- The row inserted by `SubmissionsService.create`: `version` is the number
of rows stored for the pair after the clearing update (which leaves the count
unchanged) plus one, `replacesSubmissionId` points at the latest row found
before the update, and the new row is latest. -/

def newSubmission (st : LedgerState) (speakerId : Nat) (dto : CreateSubmissionDto) :
    Submission :=
  { id := st.nextId
    speakerId := speakerId
    assetRequirementId := dto.assetRequirementId
    fileName := dto.fileName
    fileSize := dto.fileSize
    mimeType := dto.mimeType
    imageWidth := dto.imageWidth
    imageHeight := dto.imageHeight
    version := (pairRows (clearLatest st.submissions speakerId dto.assetRequirementId)
      speakerId dto.assetRequirementId).length + 1
    replacesSubmissionId :=
      (findLatest st.submissions speakerId dto.assetRequirementId).map (fun p => p.id)
    isLatest := true }

/-- `SubmissionsService.create`: look up the requirement, validate, remember
the current latest row, clear the pair's `isLatest` flags, and insert the new
row as latest, linked to the previous latest. -/

def createSubmission (st : LedgerState) (speakerId : Nat) (dto : CreateSubmissionDto) :
    Except SubmissionError (Submission × LedgerState) :=
  match st.assetRequirements.find? (fun ar => ar.id == dto.assetRequirementId) with
  | none => .error .notFound
  | some requirement =>
    if (validateSubmission dto requirement).isEmpty then
      .ok (newSubmission st speakerId dto,
        { st with
            submissions := clearLatest st.submissions speakerId dto.assetRequirementId ++
              [newSubmission st speakerId dto]
            nextId := st.nextId + 1 })
    else .error (.validation (validateSubmission dto requirement))

/-- `SubmissionsService.delete`: remove the row by id (404 when absent). -/

def deleteSubmission (st : LedgerState) (submissionId : Nat) :
    Except SubmissionError LedgerState :=
  match st.submissions.find? (fun s => s.id == submissionId) with
  | none => .error .notFound
  | some _ =>
    .ok { st with submissions := st.submissions.filter (fun s => !(s.id == submissionId)) }

/-- One API-level operation against the ledger. -/

inductive LedgerOp
  | create (speakerId : Nat) (dto : CreateSubmissionDto)
  | delete (submissionId : Nat)

/-- Apply one operation; a rejected operation leaves the tables unchanged. -/

def applyOp (st : LedgerState) : LedgerOp → LedgerState
  | .create speakerId dto =>
    match createSubmission st speakerId dto with
    | .ok (_, st2) => st2
    | .error _ => st
  | .delete submissionId =>
    match deleteSubmission st submissionId with
    | .ok st2 => st2
    | .error _ => st

/-- Run a finite sequence of operations. -/

def runOps (st : LedgerState) (ops : List LedgerOp) : LedgerState :=
  ops.foldl applyOp st

/-- Initial state: requirements configured, no submissions, serial at 1. -/

def initState (assetRequirements : List AssetRequirement) : LedgerState :=
  { assetRequirements := assetRequirements, submissions := [], nextId := 1 }

/-- Number of `isLatest = true` rows stored for a pair. -/

def latestCount (subs : List Submission) (speakerId assetRequirementId : Nat) : Nat :=
  subs.countP (fun s => matchesPair speakerId assetRequirementId s && s.isLatest)

/-- The at-most-one-latest invariant over the submissions table. -/

def LatestInv (st : LedgerState) : Prop :=
  ∀ sp rq : Nat, latestCount st.submissions sp rq ≤ 1

/-! ## The version / replaces-chain structure of a pair's history (C2) -/

/-- `chainFrom rows v prev`: the rows carry versions `v, v+1, ...` in order,
each row's `replacesSubmissionId` points at the row before it (the first at
`prev`), and exactly the last row has `isLatest = true`. -/

def chainFrom : List Submission → Nat → Option Nat → Bool
  | [], _, _ => true
  | r :: rs, v, prev =>
    r.version == v && r.replacesSubmissionId == prev && r.isLatest == rs.isEmpty &&
      chainFrom rs (v + 1) (some r.id)

/-- The chain invariant: every pair's stored history is a well-formed
version chain starting at version 1 and replacing from null. -/

def ChainInv (st : LedgerState) : Prop :=
  ∀ sp rq : Nat, chainFrom (pairRows st.submissions sp rq) 1 none = true

/-- Whether an operation is a create (the delete-free side condition). -/

def isCreate : LedgerOp → Bool
  | .create _ _ => true
  | .delete _ => false

/-- A requirement with no constraints configured (every upload validates). -/

def sampleRequirement : AssetRequirement :=
  { id := 1
    eventId := 1
    isRequired := true
    acceptedFileTypes := none
    maxFileSizeMb := none
    minImageWidth := none
    minImageHeight := none }

/-- A submission payload for `sampleRequirement`. -/

def sampleDto : CreateSubmissionDto :=
  { assetRequirementId := 1
    fileName := "slides.pdf"
    fileSize := 100
    mimeType := "application/pdf"
    imageWidth := none
    imageHeight := none }

/-! ## Completion status (`SubmissionsService.updateSpeakerSubmissionStatus`) -/

/-- The status computation of `updateSpeakerSubmissionStatus`: no latest
submissions → pending; no required assets → complete; otherwise complete
exactly when every required requirement id appears among the latest
submissions' requirement ids, else partway ('partial'). -/

def computeSubmissionStatus (assetRequirements : List AssetRequirement)
    (latestSubmissions : List Submission) : SpeakerStatus :=
  let requiredAssets := assetRequirements.filter (fun ar => ar.isRequired)
  if latestSubmissions.length = 0 then
    SpeakerStatus.pending
  else if requiredAssets.length = 0 then
    SpeakerStatus.complete
  else
    let submittedRequirementIds := latestSubmissions.map (fun s => s.assetRequirementId)
    let requiredAssetIds := requiredAssets.map (fun ra => ra.id)
    if requiredAssetIds.all (fun id => submittedRequirementIds.contains id) then
      SpeakerStatus.complete
    else
      SpeakerStatus.partway

/-- The persisted-write part of `updateSpeakerSubmissionStatus`: overwrite
`submissionStatus`; `submittedAt` becomes now when the computed status is
complete and keeps the speaker's old value otherwise; `updatedAt` elided. -/

def updateSpeakerSubmissionStatus (speaker : Speaker)
    (assetRequirements : List AssetRequirement)
    (latestSubmissions : List Submission) (now : Nat) : Speaker :=
  let newStatus := computeSubmissionStatus assetRequirements latestSubmissions
  { speaker with
      submissionStatus := newStatus
      submittedAt :=
        if newStatus = SpeakerStatus.complete then some now else speaker.submittedAt }

/-- The required requirement ids of the speaker's event. -/

def requiredIds (assetRequirements : List AssetRequirement) : List Nat :=
  (assetRequirements.filter (fun ar => ar.isRequired)).map (fun ra => ra.id)

/-- The requirement ids covered by the speaker's latest submissions. -/

def latestSubmittedIds (latestSubmissions : List Submission) : List Nat :=
  latestSubmissions.map (fun s => s.assetRequirementId)

/-- A stored submission row matching `sampleRequirement`. -/

def sampleSubmission : Submission :=
  { id := 1
    speakerId := 1
    assetRequirementId := 1
    fileName := "slides.pdf"
    fileSize := 100
    mimeType := "application/pdf"
    imageWidth := none
    imageHeight := none
    version := 1
    replacesSubmissionId := none
    isLatest := true }

/-- `SpeakersService.updateSubmissionStatus`: overwrite the status; add
`submittedAt = now` to the update only when the new status is complete. -/

def speakersUpdateSubmissionStatus (speaker : Speaker) (status : SpeakerStatus)
    (now : Nat) : Speaker :=
  if status = SpeakerStatus.complete then
    { speaker with submissionStatus := status, submittedAt := some now }
  else
    { speaker with submissionStatus := status }

/-! ## The reminder delivery pipeline (`RemindersService`, `ReminderProcessor`,
`EmailsService`) -/

/-- An email as assembled by `EmailsService` and handed to the transport.
The source field `to` is named `toAddr` (`to` is a Lean keyword). -/

structure EmailMessage where
  toAddr : String
  subject : String
  html : String
deriving DecidableEq

/-- `EmailsService.sendReminder`: the fixed reminder template, built only
from speaker email, speaker name, event name, deadline and portal URL. -/

def sendReminderMessage (speakerEmail speakerName eventName : String)
    (eventDeadline : Nat) (portalUrl : String) : EmailMessage :=
  { toAddr := speakerEmail
    subject := "Reminder: Submit your assets for " ++ eventName
    html :=
      "<h2>Hi " ++ speakerName ++ ",</h2>" ++
        "<p>This is a friendly reminder to submit your speaker assets for <strong>" ++
        eventName ++ "</strong>.</p>" ++
        "<p><strong>Deadline:</strong> " ++ formatDate eventDeadline ++ "</p>" ++
        "<p>Access your submission portal here:</p>" ++
        "<p><a href=" ++ portalUrl ++ ">Submit Your Assets</a></p>" ++
        "<p>Don\x27t miss the deadline!</p>" ++
        "<p>Best regards,<br>The StageAsset Team</p>" }

/-- Persistent state touched by the reminder pipeline. -/

structure RemState where
  speakers : List Speaker
  events : List Event
  reminders : List Reminder
  nextReminderId : Nat
deriving DecidableEq

/-- HTTP-level errors surfaced by `RemindersService`. -/

inductive ApiError
  | notFound (message : String)
  | forbidden (message : String)
  | badRequest (message : String)
deriving DecidableEq

/-- `TriggerReminderDto`: optional subject/body overrides. -/

structure TriggerReminderDto where
  speakerId : Nat
  emailSubject : Option String
  emailBody : Option String
deriving DecidableEq

/-- `${frontendUrl}/portal/speakers/${speaker.accessToken}`. -/

def portalUrlFor (frontendUrl : String) (speaker : Speaker) : String :=
  frontendUrl ++ "/portal/speakers/" ++ speaker.accessToken

/-- The manual trigger's display name:
`firstName ? (firstName + ' ' + (lastName || '')).trim() : 'there'`. -/

def triggerSpeakerName (speaker : Speaker) : String :=
  if truthyStr speaker.firstName then
    ((speaker.firstName.getD ("")) ++ " " ++ orElseStr speaker.lastName ("")).trim
  else "there"

/-- Default subject used when no override is given. -/

def defaultReminderSubject (event : Event) : String :=
  "Reminder: Submit your assets for " ++ event.name

/-- Default body used when no override is given. -/

def defaultReminderBody (speaker : Speaker) (event : Event) (portalUrl : String) :
    String :=
  "Hi " ++
    (if truthyStr speaker.firstName then speaker.firstName.getD ("") else "there") ++
    ",\n\nThis is a reminder to submit your assets for the event \"" ++ event.name ++
    "\".\n\nDeadline: " ++ formatDate event.deadline ++
    "\n\nAccess your submission portal here:\n" ++ portalUrl ++
    "\n\nDon\x27t miss the deadline!\n\nBest regards,\nThe StageAsset Team"

/-- The pending `reminders` row inserted by `triggerReminder` before sending:
overrides are persisted via JS `||`, so falsy overrides fall back to the
default template text. -/

def triggerInsertedReminder (frontendUrl : String) (st : RemState)
    (dto : TriggerReminderDto) (speaker : Speaker) (event : Event) (now : Nat) :
    Reminder :=
  { id := st.nextReminderId
    speakerId := dto.speakerId
    eventId := speaker.eventId
    status := ReminderStatus.pending
    scheduledFor := now
    sentAt := none
    emailSubject := some (orElseStr dto.emailSubject (defaultReminderSubject event))
    emailBody := some (orElseStr dto.emailBody
      (defaultReminderBody speaker event (portalUrlFor frontendUrl speaker)))
    errorMessage := none }

/-- The email `triggerReminder` hands to `EmailsService.sendReminder`. -/

def triggerMessage (frontendUrl : String) (speaker : Speaker) (event : Event) :
    EmailMessage :=
  sendReminderMessage speaker.email (triggerSpeakerName speaker) event.name
    event.deadline (portalUrlFor frontendUrl speaker)

/-- Result of a `triggerReminder` call: the returned value or raised error,
the resulting persistent state, and the emails handed to the transport. -/

structure TriggerOutcome where
  result : Except ApiError Reminder
  state : RemState
  emailsSent : List EmailMessage

/-- The inserted row after the success update (`status = sent`, `sentAt`). -/

def triggerSentReminder (frontendUrl : String) (st : RemState)
    (dto : TriggerReminderDto) (speaker : Speaker) (event : Event) (now : Nat) :
    Reminder :=
  { triggerInsertedReminder frontendUrl st dto speaker event now with
      status := ReminderStatus.sent
      sentAt := some now }

/-- The inserted row after the failure update (`status = failed`,
`errorMessage = emailError.message || 'Failed to send email'`). -/

def triggerFailedReminder (frontendUrl : String) (st : RemState)
    (dto : TriggerReminderDto) (speaker : Speaker) (event : Event) (now : Nat)
    (errMsg : String) : Reminder :=
  { triggerInsertedReminder frontendUrl st dto speaker event now with
      status := ReminderStatus.failed
      errorMessage := some (if errMsg.isEmpty then ("Failed to send email") else errMsg) }

/-- Success branch of `triggerReminder`: mark the row sent, bump the
speaker's reminder count and last-sent timestamp, return the sent row. -/

def triggerSuccessOutcome (frontendUrl : String) (st : RemState)
    (dto : TriggerReminderDto) (speaker : Speaker) (event : Event) (now : Nat) :
    TriggerOutcome :=
  { result := .ok (triggerSentReminder frontendUrl st dto speaker event now)
    state :=
      { st with
          reminders :=
            (st.reminders ++ [triggerInsertedReminder frontendUrl st dto speaker event now]).map
              (fun r => if r.id == st.nextReminderId then
                triggerSentReminder frontendUrl st dto speaker event now else r)
          speakers := st.speakers.map
            (fun s => if s.id == dto.speakerId then
              { s with
                  reminderCount := speaker.reminderCount + 1
                  lastReminderSentAt := some now }
            else s)
          nextReminderId := st.nextReminderId + 1 }
    emailsSent := [triggerMessage frontendUrl speaker event] }

/-- Failure branch of `triggerReminder`: mark the row failed with the
notifier's message and re-raise as a BadRequest. -/

def triggerFailureOutcome (frontendUrl : String) (st : RemState)
    (dto : TriggerReminderDto) (speaker : Speaker) (event : Event) (now : Nat)
    (errMsg : String) : TriggerOutcome :=
  { result := .error (.badRequest ("Failed to send reminder email: " ++ errMsg))
    state :=
      { st with
          reminders :=
            (st.reminders ++ [triggerInsertedReminder frontendUrl st dto speaker event now]).map
              (fun r => if r.id == st.nextReminderId then
                triggerFailedReminder frontendUrl st dto speaker event now errMsg else r)
          nextReminderId := st.nextReminderId + 1 }
    emailsSent := [triggerMessage frontendUrl speaker event] }

/-- `RemindersService.triggerReminder`: ownership checks, insert a pending
row, send the fixed-template email through the transport `send`, then mark
the row sent or failed. -/

def triggerReminder (send : EmailMessage → Except String Unit) (frontendUrl : String)
    (userId : Nat) (st : RemState) (dto : TriggerReminderDto) (now : Nat) :
    TriggerOutcome :=
  match st.speakers.find? (fun s => s.id == dto.speakerId) with
  | none => ⟨.error (.notFound ("Speaker not found")), st, []⟩
  | some speaker =>
    match st.events.find? (fun e => e.id == speaker.eventId) with
    | none => ⟨.error (.forbidden ("You do not have access to this speaker")), st, []⟩
    | some event =>
      if event.userId != userId then
        ⟨.error (.forbidden ("You do not have access to this speaker")), st, []⟩
      else
        match send (triggerMessage frontendUrl speaker event) with
        | .ok _ => triggerSuccessOutcome frontendUrl st dto speaker event now
        | .error errMsg => triggerFailureOutcome frontendUrl st dto speaker event now errMsg

/-- Errors surfaced by `retryFailedReminder`. -/

inductive RetryError
  | notFound
  | forbidden
  | stateError
deriving DecidableEq

/-- Result of a `retryFailedReminder` call. -/

structure RetryOutcome where
  result : Except RetryError Reminder
  reminders : List Reminder
  emailsSent : List EmailMessage

/-- The update applied on retry: reclassify as sent, set `sentAt`, clear the
error — the notifier is not called. -/

def retriedReminder (reminder : Reminder) (now : Nat) : Reminder :=
  { reminder with
      status := ReminderStatus.sent
      sentAt := some now
      errorMessage := none }

/-- `RemindersService.retryFailedReminder`: ownership checks, a state check
(`status` must be failed), then the sent-reclassification update; no email
is sent on this path. -/

def retryFailedReminder (userId : Nat) (st : RemState) (reminderId : Nat)
    (now : Nat) : RetryOutcome :=
  match st.reminders.find? (fun r => r.id == reminderId) with
  | none => ⟨.error .notFound, st.reminders, []⟩
  | some reminder =>
    match st.events.find? (fun e => e.id == reminder.eventId) with
    | none => ⟨.error .forbidden, st.reminders, []⟩
    | some event =>
      if event.userId != userId then
        ⟨.error .forbidden, st.reminders, []⟩
      else if reminder.status != ReminderStatus.failed then
        ⟨.error .stateError, st.reminders, []⟩
      else
        ⟨.ok (retriedReminder reminder now),
          st.reminders.map
            (fun r => if r.id == reminderId then retriedReminder reminder now else r),
          []⟩

/-- The processor's display name:
`firstName ? firstName + ' ' + (lastName || '') : email` (no trim). -/

def processorSpeakerName (speaker : Speaker) : String :=
  if truthyStr speaker.firstName then
    (speaker.firstName.getD ("")) ++ " " ++ orElseStr speaker.lastName ("")
  else speaker.email

/-- The email the job processor hands to `EmailsService.sendReminder`. -/

def processorMessage (frontendUrl : String) (speaker : Speaker) (event : Event) :
    EmailMessage :=
  sendReminderMessage speaker.email (processorSpeakerName speaker) event.name
    event.deadline (portalUrlFor frontendUrl speaker)

/-- The plain-text body stored on the processor's reminder row. -/

def processorEmailBody (frontendUrl : String) (speaker : Speaker) (event : Event) :
    String :=
  "Hi " ++ processorSpeakerName speaker ++
    ",\n\nThis is a friendly reminder to submit your speaker assets for " ++
    event.name ++ ".\n\nDeadline: " ++ formatDate event.deadline ++
    "\n\nAccess your submission portal here:\n" ++ portalUrlFor frontendUrl speaker ++
    "\n\nDon\x27t miss the deadline!\n\nBest regards,\nThe StageAsset Team"

/-- The pending row the job processor inserts before sending. -/

def processorInsertedReminder (frontendUrl : String) (st : RemState)
    (speakerId eventId : Nat) (speaker : Speaker) (event : Event) (now : Nat) :
    Reminder :=
  { id := st.nextReminderId
    speakerId := speakerId
    eventId := eventId
    status := ReminderStatus.pending
    scheduledFor := now
    sentAt := none
    emailSubject := some ("Reminder: Submit your assets for " ++ event.name)
    emailBody := some (processorEmailBody frontendUrl speaker event)
    errorMessage := none }

/-- Result of one processed reminder job. -/

structure JobOutcome where
  result : Except String String
  state : RemState
  emailsSent : List EmailMessage

/-- Success branch of the job processor. -/

def jobSuccessOutcome (frontendUrl : String) (st : RemState)
    (speakerId eventId : Nat) (speaker : Speaker) (event : Event) (now : Nat) :
    JobOutcome :=
  { result := .ok ("Reminder sent successfully")
    state :=
      { st with
          reminders :=
            (st.reminders ++
                [processorInsertedReminder frontendUrl st speakerId eventId speaker event now]).map
              (fun r => if r.id == st.nextReminderId then
                { processorInsertedReminder frontendUrl st speakerId eventId speaker event now with
                    status := ReminderStatus.sent
                    sentAt := some now }
              else r)
          speakers := st.speakers.map
            (fun s => if s.id == speakerId then
              { s with
                  lastReminderSentAt := some now
                  reminderCount := speaker.reminderCount + 1 }
            else s)
          nextReminderId := st.nextReminderId + 1 }
    emailsSent := [processorMessage frontendUrl speaker event] }

/-- Failure branch of the job processor: the row is marked failed and the
error re-thrown. -/

def jobFailureOutcome (frontendUrl : String) (st : RemState)
    (speakerId eventId : Nat) (speaker : Speaker) (event : Event) (now : Nat)
    (errMsg : String) : JobOutcome :=
  { result := .error errMsg
    state :=
      { st with
          reminders :=
            (st.reminders ++
                [processorInsertedReminder frontendUrl st speakerId eventId speaker event now]).map
              (fun r => if r.id == st.nextReminderId then
                { processorInsertedReminder frontendUrl st speakerId eventId speaker event now with
                    status := ReminderStatus.failed
                    errorMessage := some (if errMsg.isEmpty then ("Failed to send email")
                      else errMsg) }
              else r)
          nextReminderId := st.nextReminderId + 1 }
    emailsSent := [processorMessage frontendUrl speaker event] }

/-- `ReminderProcessor.handleReminderJob`: skip when the speaker is missing
or already complete; otherwise insert a row, send, and finalize it. -/

def handleReminderJob (send : EmailMessage → Except String Unit)
    (frontendUrl : String) (st : RemState) (speakerId eventId : Nat) (now : Nat) :
    JobOutcome :=
  match st.speakers.find? (fun s => s.id == speakerId) with
  | none => ⟨.ok ("Speaker not found or already completed"), st, []⟩
  | some speaker =>
    if speaker.submissionStatus = SpeakerStatus.complete then
      ⟨.ok ("Speaker not found or already completed"), st, []⟩
    else
      match st.events.find? (fun e => e.id == eventId) with
      | none => ⟨.ok ("Event not found"), st, []⟩
      | some event =>
        match send (processorMessage frontendUrl speaker event) with
        | .ok _ =>
          jobSuccessOutcome frontendUrl st speakerId eventId speaker event now
        | .error errMsg =>
          jobFailureOutcome frontendUrl st speakerId eventId speaker event now errMsg

/-- A sample event owned by user 1. -/

def sampleEvent : Event :=
  { id := 1, userId := 1, name := "TestEvent", deadline := 5 }

/-- A sample speaker of `sampleEvent`. -/

def sampleSpeaker : Speaker :=
  { id := 1
    eventId := 1
    email := "ada@example.com"
    firstName := some ("Ada")
    lastName := none
    accessToken := "tok123"
    submissionStatus := SpeakerStatus.pending
    submittedAt := none
    reminderCount := 0
    lastReminderSentAt := none }

/-- A failed reminder row for `sampleSpeaker`. -/

def sampleFailedReminder : Reminder :=
  { id := 7
    speakerId := 1
    eventId := 1
    status := ReminderStatus.failed
    scheduledFor := 0
    sentAt := none
    emailSubject := some ("s")
    emailBody := some ("b")
    errorMessage := some ("SMTP down") }

/-- State holding the failed reminder. -/

def retryState : RemState :=
  { speakers := [sampleSpeaker]
    events := [sampleEvent]
    reminders := [sampleFailedReminder]
    nextReminderId := 8 }

/-- A transport that always fails with a fixed message. -/

def failSend : EmailMessage → Except String Unit :=
  fun _ => Except.error ("SMTP connection refused")

/-- A transport that always succeeds. -/

def okSend : EmailMessage → Except String Unit :=
  fun _ => Except.ok ()

/-- Trigger state: the sample speaker and event, no reminders yet. -/

def sampleTriggerState : RemState :=
  { speakers := [sampleSpeaker]
    events := [sampleEvent]
    reminders := []
    nextReminderId := 1 }

/-- A trigger payload without overrides. -/

def sampleTriggerDto : TriggerReminderDto :=
  { speakerId := 1, emailSubject := none, emailBody := none }

/-- The sample speaker with a complete submission status. -/

def completeSpeaker : Speaker :=
  { sampleSpeaker with submissionStatus := SpeakerStatus.complete }

/-- Job state holding the complete speaker. -/

def completeJobState : RemState :=
  { speakers := [completeSpeaker]
    events := [sampleEvent]
    reminders := []
    nextReminderId := 1 }

/-- A trigger payload whose overrides are empty strings (falsy in JS). -/

def emptyOverrideDto : TriggerReminderDto :=
  { speakerId := 1, emailSubject := some (""), emailBody := some ("") }

/-- A trigger payload with non-empty overrides. -/

def overrideDto : TriggerReminderDto :=
  { speakerId := 1
    emailSubject := some ("Custom subject")
    emailBody := some ("Custom body") }

/-! ## Theorems -/

/-- Clearing a row's `isLatest` flag does not change its pair. -/

theorem matchesPair_clear (sp rq : Nat) (s : Submission) :
    matchesPair sp rq { s with isLatest := false } = matchesPair sp rq s := by
  simp [matchesPair]

/-- After the `isLatest := false` update, the targeted pair has no latest row. -/

theorem latestCount_clearLatest_self (subs : List Submission) (sp rq : Nat) :
    latestCount (clearLatest subs sp rq) sp rq = 0 := by
  unfold latestCount clearLatest
  rw [List.countP_map, List.countP_eq_zero]
  intro s _
  by_cases h : matchesPair sp rq s = true
  · simp [Function.comp, clearRow, h, matchesPair_clear]
  · simp [Function.comp, clearRow, h]

/-- The `isLatest := false` update never increases any pair's latest count. -/

theorem latestCount_clearLatest_le (subs : List Submission) (sp rq sp' rq' : Nat) :
    latestCount (clearLatest subs sp rq) sp' rq' ≤ latestCount subs sp' rq' := by
  unfold latestCount clearLatest
  rw [List.countP_map]
  apply List.countP_mono_left
  intro s _ hs
  by_cases h : matchesPair sp rq s = true
  · simp [Function.comp, clearRow, h, matchesPair_clear] at hs
  · simpa [Function.comp, clearRow, h] using hs

/-- Latest count over an append decomposes pointwise. -/

theorem latestCount_append (l₁ l₂ : List Submission) (sp rq : Nat) :
    latestCount (l₁ ++ l₂) sp rq = latestCount l₁ sp rq + latestCount l₂ sp rq := by
  simp [latestCount, List.countP_append]

/-- Deleting rows (a `filter`) never increases any pair's latest count. -/

theorem latestCount_filter_le (subs : List Submission) (p : Submission → Bool)
    (sp rq : Nat) : latestCount (subs.filter p) sp rq ≤ latestCount subs sp rq :=
  (List.filter_sublist subs).countP_le _

/-- Inversion of a successful `createSubmission`: the stored table is the
cleared table plus the inserted row, which is latest and belongs to the pair. -/

theorem createSubmission_ok_spec {st : LedgerState} {sp : Nat}
    {dto : CreateSubmissionDto} {sub : Submission} {st2 : LedgerState}
    (h : createSubmission st sp dto = .ok (sub, st2)) :
    sub = newSubmission st sp dto ∧
    st2.submissions = clearLatest st.submissions sp dto.assetRequirementId ++ [sub] ∧
    st2.nextId = st.nextId + 1 ∧
    st2.assetRequirements = st.assetRequirements := by
  unfold createSubmission at h
  split at h
  · cases h
  · split at h
    · simp only [Except.ok.injEq, Prod.mk.injEq] at h
      obtain ⟨hsub, hst2⟩ := h
      subst hsub
      rw [← hst2]
      exact ⟨rfl, rfl, rfl, rfl⟩
    · cases h

/-- Inversion of a successful `deleteSubmission`. -/

theorem deleteSubmission_ok_spec {st : LedgerState} {submissionId : Nat}
    {st2 : LedgerState} (h : deleteSubmission st submissionId = .ok st2) :
    st2.submissions = st.submissions.filter (fun s => !(s.id == submissionId)) ∧
    st2.assetRequirements = st.assetRequirements ∧ st2.nextId = st.nextId := by
  unfold deleteSubmission at h
  cases hfind : st.submissions.find? (fun s => s.id == submissionId) with
  | none => rw [hfind] at h; cases h
  | some s =>
    rw [hfind] at h
    simp only [Except.ok.injEq] at h
    rw [← h]
    exact ⟨rfl, rfl, rfl⟩

/-- Every single ledger operation preserves the at-most-one-latest invariant. -/

theorem latestInv_applyOp {st : LedgerState} (hinv : LatestInv st) (op : LedgerOp) :
    LatestInv (applyOp st op) := by
  cases op with
  | create speakerId dto =>
    simp only [applyOp]
    split
    · next sub st2 hc =>
      obtain ⟨hsub, hsubs, -, -⟩ := createSubmission_ok_spec hc
      intro sp rq
      rw [hsubs, latestCount_append]
      by_cases hpair : matchesPair sp rq sub = true
      · have hkey : sp = speakerId ∧ rq = dto.assetRequirementId := by
          rw [hsub] at hpair
          simp [matchesPair, newSubmission] at hpair
          omega
        have h0 : latestCount (clearLatest st.submissions speakerId dto.assetRequirementId)
            sp rq = 0 := by
          rw [hkey.1, hkey.2]
          exact latestCount_clearLatest_self _ _ _
        rw [h0]
        have h1 : latestCount [sub] sp rq ≤ 1 := by
          simp only [latestCount, List.countP_cons, List.countP_nil]
          split <;> simp
        omega
      · have h1 : latestCount [sub] sp rq = 0 := by
          simp [latestCount, List.countP_cons, hpair]
        rw [h1]
        have := latestCount_clearLatest_le st.submissions speakerId dto.assetRequirementId sp rq
        have := hinv sp rq
        omega
    · next => exact hinv
  | delete submissionId =>
    simp only [applyOp]
    split
    · next st2 hd =>
      obtain ⟨hsubs, -, -⟩ := deleteSubmission_ok_spec hd
      intro sp rq
      rw [hsubs]
      exact le_trans (latestCount_filter_le _ _ _ _) (hinv sp rq)
    · next => exact hinv

/-- The invariant is preserved along any finite run. -/

theorem latestInv_runOps {st : LedgerState} (hinv : LatestInv st) (ops : List LedgerOp) :
    LatestInv (runOps st ops) := by
  induction ops generalizing st with
  | nil => exact hinv
  | cons op rest ih => exact ih (latestInv_applyOp hinv op)

/-- C1: for every (speakerId, assetRequirementId) pair, after any finite
sequence of createSubmission and deleteSubmission operations, at most one
Submission row for that pair has isLatest = true. -/

theorem C1_at_most_one_latest (assetRequirements : List AssetRequirement)
    (ops : List LedgerOp) (speakerId assetRequirementId : Nat) :
    latestCount (runOps (initState assetRequirements) ops).submissions
      speakerId assetRequirementId ≤ 1 := by
  refine latestInv_runOps (fun sp rq => ?_) ops speakerId assetRequirementId
  simp [initState, latestCount]

/-- Filtering commutes with a map that does not change the filter predicate. -/

theorem filter_map_comm {α : Type} (f : α → α) (p : α → Bool)
    (hf : ∀ a, p (f a) = p a) (l : List α) :
    (l.map f).filter p = (l.filter p).map f := by
  induction l with
  | nil => rfl
  | cons a l ih =>
    by_cases h : p a = true
    · simp [List.filter_cons, hf, h, ih]
    · simp [List.filter_cons, hf, h, ih]

/-- A map that fixes every element kept by the filter drops out of it. -/

theorem filter_map_eq_self {α : Type} (f : α → α) (p : α → Bool)
    (hf : ∀ a, p (f a) = p a) (hid : ∀ a, p a = true → f a = a) (l : List α) :
    (l.map f).filter p = l.filter p := by
  rw [filter_map_comm f p hf]
  induction l with
  | nil => rfl
  | cons a l ih =>
    by_cases h : p a = true
    · simp [List.filter_cons, h, hid a h, ih]
    · simp [List.filter_cons, h, ih]

/-- The clearing update maps the pair's own rows pointwise. -/

theorem pairRows_clearLatest_self (subs : List Submission) (sp rq : Nat) :
    pairRows (clearLatest subs sp rq) sp rq =
      (pairRows subs sp rq).map (clearRow sp rq) := by
  unfold pairRows clearLatest
  refine filter_map_comm _ _ (fun s => ?_) subs
  unfold clearRow
  split
  · exact matchesPair_clear sp rq s
  · rfl

/-- The clearing update leaves every other pair's rows untouched. -/

theorem pairRows_clearLatest_other (subs : List Submission) (sp rq sp' rq' : Nat)
    (hne : ¬(sp' = sp ∧ rq' = rq)) :
    pairRows (clearLatest subs sp rq) sp' rq' = pairRows subs sp' rq' := by
  unfold pairRows clearLatest
  refine filter_map_eq_self _ _ (fun s => ?_) (fun s hs => ?_) subs
  · unfold clearRow
    split
    · exact matchesPair_clear sp' rq' s
    · rfl
  · unfold clearRow
    split
    · next hmatch =>
      exfalso
      apply hne
      simp [matchesPair] at hs hmatch
      exact ⟨by omega, by omega⟩
    · rfl

/-- `find?` with a conjunction of the filter predicate restricts to the
filtered list: the whole-table latest lookup equals a lookup over the pair. -/

theorem findLatest_eq_pair_find? (subs : List Submission) (sp rq : Nat) :
    findLatest subs sp rq = (pairRows subs sp rq).find? (fun s => s.isLatest) := by
  unfold findLatest pairRows
  induction subs with
  | nil => rfl
  | cons s l ih =>
    by_cases h : matchesPair sp rq s = true
    · by_cases hl : s.isLatest = true
      · rw [List.find?_cons_of_pos _ (by simp [h, hl]), List.filter_cons_of_pos h,
          List.find?_cons_of_pos _ hl]
      · rw [List.find?_cons_of_neg _ (by simp [h, hl]), List.filter_cons_of_pos h,
          List.find?_cons_of_neg _ (by simp [hl])]
        exact ih
    · rw [List.find?_cons_of_neg _ (by simp [h]), List.filter_cons_of_neg h]
      exact ih

/-- In a chain only the last row is latest, so the latest lookup is the last
row of the history. -/

theorem chain_find?_latest (rows : List Submission) (v : Nat) (prev : Option Nat)
    (hc : chainFrom rows v prev = true) :
    rows.find? (fun s => s.isLatest) = rows.getLast? := by
  induction rows generalizing v prev with
  | nil => rfl
  | cons r rs ih =>
    simp only [chainFrom, Bool.and_eq_true, beq_iff_eq] at hc
    obtain ⟨⟨⟨hv, hp⟩, hl⟩, hrest⟩ := hc
    cases rs with
    | nil =>
      have hl' : r.isLatest = true := by simpa using hl
      rw [List.find?_cons_of_pos _ (by simpa using hl')]
      rfl
    | cons r2 rs2 =>
      have hl' : r.isLatest = false := by simpa using hl
      rw [List.find?_cons_of_neg _ (by simp [hl']), List.getLast?_cons_cons]
      exact ih _ _ hrest

/-- `Option.elim` view of `getLast?` on a cons cell. -/

theorem getLast?_cons_elim {α β : Type} (r : α) (rs : List α) (d : β) (f : α → β) :
    ((r :: rs).getLast?).elim d f = (rs.getLast?).elim (f r) f := by
  cases rs with
  | nil => rfl
  | cons a l =>
    rw [List.getLast?_cons_cons]
    cases hgl : (a :: l).getLast? with
    | none => exact absurd hgl (by simp)
    | some x => rfl

/-- Appending a fresh latest row to a cleared chain yields a chain: the new
row continues the version sequence and replaces the old last row. -/

theorem chainFrom_snoc (new : Submission) (rows : List Submission) (v : Nat)
    (prev : Option Nat) (hc : chainFrom rows v prev = true)
    (hv : new.version = v + rows.length)
    (hr : new.replacesSubmissionId = (rows.getLast?).elim prev (fun r => some r.id))
    (hl : new.isLatest = true) :
    chainFrom (rows.map (fun s => { s with isLatest := false }) ++ [new]) v prev
      = true := by
  induction rows generalizing v prev with
  | nil =>
    simp only [List.getLast?, Option.elim] at hr
    simp [chainFrom, hv, hr, hl]
  | cons r rs ih =>
    simp only [chainFrom, Bool.and_eq_true, beq_iff_eq] at hc
    obtain ⟨⟨⟨hrv, hrp⟩, -⟩, hrest⟩ := hc
    simp only [List.map_cons, List.cons_append, chainFrom, Bool.and_eq_true, beq_iff_eq]
    refine ⟨⟨⟨hrv, hrp⟩, by simp⟩, ?_⟩
    refine ih (v + 1) (some r.id) hrest ?_ ?_
    · simp only [List.length_cons] at hv
      omega
    · rw [hr, getLast?_cons_elim]

/-- `pairRows` distributes over append. -/

theorem pairRows_append (l₁ l₂ : List Submission) (sp rq : Nat) :
    pairRows (l₁ ++ l₂) sp rq = pairRows l₁ sp rq ++ pairRows l₂ sp rq := by
  simp [pairRows, List.filter_append]

/-- A matching singleton survives the pair filter. -/

theorem pairRows_singleton_pos {sp rq : Nat} {s : Submission}
    (h : matchesPair sp rq s = true) : pairRows [s] sp rq = [s] := by
  simp [pairRows, List.filter_cons, h]

/-- A non-matching singleton is dropped by the pair filter. -/

theorem pairRows_singleton_neg {sp rq : Nat} {s : Submission}
    (h : ¬matchesPair sp rq s = true) : pairRows [s] sp rq = [] := by
  simp [pairRows, List.filter_cons, h]

/-- Rows kept by the pair filter all match the pair, so clearing them is the
pointwise `isLatest := false` update. -/

theorem map_clearRow_pairRows (subs : List Submission) (sp rq : Nat) :
    (pairRows subs sp rq).map (clearRow sp rq) =
      (pairRows subs sp rq).map (fun s => { s with isLatest := false }) := by
  apply List.map_congr_left
  intro s hs
  have hmem := List.of_mem_filter hs
  unfold clearRow
  rw [if_pos hmem]

/-- A (successful or failed) create preserves the chain invariant. -/

theorem chainInv_applyCreate {st : LedgerState} (hinv : ChainInv st)
    (speakerId : Nat) (dto : CreateSubmissionDto) :
    ChainInv (applyOp st (.create speakerId dto)) := by
  simp only [applyOp]
  split
  · next sub st2 hc =>
    obtain ⟨hsub, hsubs, -, -⟩ := createSubmission_ok_spec hc
    intro sp rq
    rw [hsubs, pairRows_append]
    by_cases hkey : sp = speakerId ∧ rq = dto.assetRequirementId
    · obtain ⟨h1, h2⟩ := hkey
      subst h1
      subst h2
      have hpair : matchesPair sp dto.assetRequirementId sub = true := by
        rw [hsub]
        simp [matchesPair, newSubmission]
      rw [pairRows_singleton_pos hpair, pairRows_clearLatest_self,
        map_clearRow_pairRows]
      refine chainFrom_snoc sub (pairRows st.submissions sp dto.assetRequirementId)
        1 none (hinv sp dto.assetRequirementId) ?_ ?_ ?_
      · rw [hsub]
        simp only [newSubmission]
        rw [pairRows_clearLatest_self, List.length_map]
        omega
      · rw [hsub]
        simp only [newSubmission]
        rw [findLatest_eq_pair_find?,
          chain_find?_latest _ 1 none (hinv sp dto.assetRequirementId)]
        cases (pairRows st.submissions sp dto.assetRequirementId).getLast? <;> rfl
      · rw [hsub]
        rfl
    · have hpair : ¬matchesPair sp rq sub = true := by
        rw [hsub]
        simp only [matchesPair, newSubmission, Bool.and_eq_true, beq_iff_eq]
        intro h
        exact hkey ⟨h.1.symm, h.2.symm⟩
      rw [pairRows_singleton_neg hpair, List.append_nil,
        pairRows_clearLatest_other st.submissions speakerId dto.assetRequirementId
          sp rq hkey]
      exact hinv sp rq
  · next => exact hinv

/-- Any delete-free run preserves the chain invariant. -/

theorem chainInv_runOps {st : LedgerState} (hinv : ChainInv st) (ops : List LedgerOp)
    (hops : ops.all isCreate = true) : ChainInv (runOps st ops) := by
  induction ops generalizing st with
  | nil => exact hinv
  | cons op rest ih =>
    simp only [List.all_cons, Bool.and_eq_true] at hops
    cases op with
    | create sp dto => exact ih (chainInv_applyCreate hinv sp dto) hops.2
    | delete sid => simp [isCreate] at hops

/-- A chain's versions are consecutive starting at `v`. -/

theorem chain_versions (rows : List Submission) (v : Nat) (prev : Option Nat)
    (hc : chainFrom rows v prev = true) :
    rows.map (fun s => s.version) = List.range' v rows.length := by
  induction rows generalizing v prev with
  | nil => rfl
  | cons r rs ih =>
    simp only [chainFrom, Bool.and_eq_true, beq_iff_eq] at hc
    obtain ⟨⟨⟨hv, -⟩, -⟩, hrest⟩ := hc
    rw [List.map_cons, List.length_cons, List.range'_succ, hv, ih _ _ hrest]

/-- C2 (amended): in any delete-free run, each pair's stored history carries
versions exactly 1..N in creation order, and the replaces-chain followed from
the current latest visits every prior version exactly once and terminates at
null (the `chainFrom` predicate). -/

theorem C2_delete_free_versions_and_chain (assetRequirements : List AssetRequirement)
    (ops : List LedgerOp) (hops : ops.all isCreate = true)
    (speakerId assetRequirementId : Nat) :
    chainFrom (pairRows (runOps (initState assetRequirements) ops).submissions
        speakerId assetRequirementId) 1 none = true ∧
    (pairRows (runOps (initState assetRequirements) ops).submissions
        speakerId assetRequirementId).map (fun s => s.version) =
      List.range' 1 (pairRows (runOps (initState assetRequirements) ops).submissions
        speakerId assetRequirementId).length := by
  have hchain := @chainInv_runOps (initState assetRequirements)
    (fun sp rq => rfl) ops hops speakerId assetRequirementId
  exact ⟨hchain, chain_versions _ _ _ hchain⟩

/-- C2 witness: a two-create run yields versions [1, 2] forming a chain. -/

theorem C2_delete_free_versions_and_chain_witness :
    ([LedgerOp.create 1 sampleDto, LedgerOp.create 1 sampleDto].all isCreate = true) ∧
    (chainFrom (pairRows (runOps (initState [sampleRequirement])
        [LedgerOp.create 1 sampleDto, LedgerOp.create 1 sampleDto]).submissions
        1 1) 1 none = true ∧
      (pairRows (runOps (initState [sampleRequirement])
          [LedgerOp.create 1 sampleDto, LedgerOp.create 1 sampleDto]).submissions
          1 1).map (fun s => s.version) =
        List.range' 1 (pairRows (runOps (initState [sampleRequirement])
            [LedgerOp.create 1 sampleDto, LedgerOp.create 1 sampleDto]).submissions
            1 1).length) :=
  ⟨rfl, C2_delete_free_versions_and_chain [sampleRequirement]
    [LedgerOp.create 1 sampleDto, LedgerOp.create 1 sampleDto] rfl 1 1⟩

/-- C2 counterexample: create, create, delete the first row, create again.
The code recomputes `version` from the rows currently stored (not from the
number of submissions ever created), so the pair ends with versions [2, 2] —
not the claimed 1..N sequence, and not ever-created-count-plus-one. -/

theorem C2_counterexample :
    (pairRows (runOps (initState [sampleRequirement])
        [LedgerOp.create 1 sampleDto, LedgerOp.create 1 sampleDto,
          LedgerOp.delete 1, LedgerOp.create 1 sampleDto]).submissions
        1 1).map (fun s => s.version) = [2, 2] ∧
    ([2, 2] : List Nat) ≠ List.range' 1 2 := by
  constructor
  · rfl
  · decide

/-- C3: with no latest submissions the derived status is pending; with at
least one, it is complete exactly when every required requirement id is among
the latest-submitted ids, and partway ('partial') exactly otherwise. -/

theorem C3_status_of_sets (assetRequirements : List AssetRequirement)
    (latestSubmissions : List Submission) :
    (latestSubmissions = [] →
      computeSubmissionStatus assetRequirements latestSubmissions =
        SpeakerStatus.pending) ∧
    (latestSubmissions ≠ [] →
      ((computeSubmissionStatus assetRequirements latestSubmissions =
          SpeakerStatus.complete ↔
        ∀ id ∈ requiredIds assetRequirements, id ∈ latestSubmittedIds latestSubmissions) ∧
      (computeSubmissionStatus assetRequirements latestSubmissions =
          SpeakerStatus.partway ↔
        ¬∀ id ∈ requiredIds assetRequirements,
          id ∈ latestSubmittedIds latestSubmissions))) := by
  constructor
  · intro h
    subst h
    rfl
  · intro hne
    have hlen : ¬latestSubmissions.length = 0 := by
      simpa [List.length_eq_zero] using hne
    unfold computeSubmissionStatus requiredIds latestSubmittedIds
    rw [if_neg hlen]
    by_cases hreq : (assetRequirements.filter (fun ar => ar.isRequired)).length = 0
    · rw [if_pos hreq]
      rw [List.length_eq_zero] at hreq
      simp [hreq]
    · rw [if_neg hreq]
      by_cases hall : ((assetRequirements.filter (fun ar => ar.isRequired)).map
          (fun ra => ra.id)).all
          (fun id => (latestSubmissions.map (fun s => s.assetRequirementId)).contains id)
          = true
      · rw [if_pos hall]
        simp only [List.all_eq_true, List.elem_iff] at hall
        constructor
        · constructor
          · intro _
            intro id hid
            simpa using hall id hid
          · intro _
            rfl
        · constructor
          · intro h
            cases h
          · intro h
            exact absurd (fun id hid => by simpa using hall id hid) h
      · rw [if_neg hall]
        simp only [List.all_eq_true, List.elem_iff, not_forall] at hall
        constructor
        · constructor
          · intro h
            cases h
          · intro h
            exfalso
            obtain ⟨id, hid, hmem⟩ := hall
            exact hmem (by simpa using h id hid)
        · constructor
          · intro _
            intro h
            obtain ⟨id, hid, hmem⟩ := hall
            exact hmem (by simpa using h id hid)
          · intro _
            rfl

/-- C3 witness: with one latest submission covering the single required
requirement, the derived status is characterised by set containment. -/

theorem C3_status_of_sets_witness :
    ([sampleSubmission] ≠ ([] : List Submission)) ∧
    ((computeSubmissionStatus [sampleRequirement] [sampleSubmission] =
        SpeakerStatus.complete ↔
      ∀ id ∈ requiredIds [sampleRequirement], id ∈ latestSubmittedIds [sampleSubmission]) ∧
    (computeSubmissionStatus [sampleRequirement] [sampleSubmission] =
        SpeakerStatus.partway ↔
      ¬∀ id ∈ requiredIds [sampleRequirement],
        id ∈ latestSubmittedIds [sampleSubmission])) :=
  ⟨by simp, (C3_status_of_sets [sampleRequirement] [sampleSubmission]).2 (by simp)⟩

/-- C4 counterexample: a speaker of an event with no required assets and no
submissions at all gets status pending, not complete — the no-submissions
check runs before the empty-required-set check. -/

theorem C4_counterexample :
    computeSubmissionStatus [] [] = SpeakerStatus.pending ∧
    SpeakerStatus.pending ≠ SpeakerStatus.complete := by
  exact ⟨rfl, by decide⟩

/-- C4 (amended): when the event's required set is empty, a speaker with at
least one latest submission is complete; with no submissions at all the
status is pending even then. -/

theorem C4_empty_required (assetRequirements : List AssetRequirement)
    (latestSubmissions : List Submission)
    (hreq : assetRequirements.filter (fun ar => ar.isRequired) = []) :
    (latestSubmissions ≠ [] →
      computeSubmissionStatus assetRequirements latestSubmissions =
        SpeakerStatus.complete) ∧
    (latestSubmissions = [] →
      computeSubmissionStatus assetRequirements latestSubmissions =
        SpeakerStatus.pending) := by
  constructor
  · intro hne
    have hlen : ¬latestSubmissions.length = 0 := by
      simpa [List.length_eq_zero] using hne
    unfold computeSubmissionStatus
    rw [if_neg hlen, if_pos (by simp [hreq])]
  · intro h
    subst h
    rfl

/-- C4 witness: one unrequired requirement, one latest submission. -/

theorem C4_empty_required_witness :
    ([] : List AssetRequirement).filter (fun ar => ar.isRequired) = [] ∧
    ([sampleSubmission] ≠ ([] : List Submission)) ∧
    computeSubmissionStatus [] [sampleSubmission] = SpeakerStatus.complete :=
  ⟨rfl, by simp, (C4_empty_required [] [sampleSubmission] rfl).1 (by simp)⟩

/-- C6: every re-evaluation overwrites `submissionStatus` with the computed
value, and `submittedAt` is set to now exactly when the computed value is
complete, otherwise keeping its previous value — in both write paths. -/

theorem C6_submittedAt_frame (speaker : Speaker)
    (assetRequirements : List AssetRequirement)
    (latestSubmissions : List Submission) (now : Nat) (status : SpeakerStatus) :
    (updateSpeakerSubmissionStatus speaker assetRequirements latestSubmissions
        now).submissionStatus =
      computeSubmissionStatus assetRequirements latestSubmissions ∧
    (updateSpeakerSubmissionStatus speaker assetRequirements latestSubmissions
        now).submittedAt =
      (if computeSubmissionStatus assetRequirements latestSubmissions =
          SpeakerStatus.complete then some now else speaker.submittedAt) ∧
    (speakersUpdateSubmissionStatus speaker status now).submissionStatus = status ∧
    (speakersUpdateSubmissionStatus speaker status now).submittedAt =
      (if status = SpeakerStatus.complete then some now else speaker.submittedAt) := by
  refine ⟨rfl, rfl, ?_, ?_⟩
  · unfold speakersUpdateSubmissionStatus
    split <;> rfl
  · unfold speakersUpdateSubmissionStatus
    split <;> rfl

/-- Updating the row with a fresh id inside an `update ... where id = n`
touches only the appended row. -/

theorem map_replace_append_fresh (l : List Reminder) (x y : Reminder) (n : Nat)
    (hfresh : ∀ r ∈ l, r.id ≠ n) (hx : x.id = n) :
    (l ++ [x]).map (fun r => if r.id == n then y else r) = l ++ [y] := by
  rw [List.map_append]
  have h1 : l.map (fun r => if r.id == n then y else r) = l := by
    calc l.map (fun r => if r.id == n then y else r) = l.map id :=
          List.map_congr_left (fun r hr => by simp [hfresh r hr])
      _ = l := l.map_id
  have h2 : [x].map (fun r => if r.id == n then y else r) = [y] := by
    simp [hx]
  rw [h1, h2]

/-- A non-empty string override wins over the `||` default. -/

theorem orElseStr_some_of_ne (s d : String) (h : s ≠ "") :
    orElseStr (some s) d = s := by
  unfold orElseStr truthyStr
  rw [if_pos]
  · rfl
  · have : s.isEmpty = false := by
      rw [Bool.eq_false_iff]
      intro he
      exact h ((String.isEmpty_iff s).mp he)
    simp [this]

/-- C7: retryFailedReminder raises a state error whenever the target
reminder's status is not failed; when it is failed, the row is reclassified
sent with `sentAt` set and no email is handed to the notifier. -/

theorem C7_retry_requires_failed (userId : Nat) (st : RemState)
    (reminderId now : Nat) (reminder : Reminder) (event : Event)
    (hrem : st.reminders.find? (fun r => r.id == reminderId) = some reminder)
    (hev : st.events.find? (fun e => e.id == reminder.eventId) = some event)
    (hown : event.userId = userId) :
    (reminder.status ≠ ReminderStatus.failed →
      (retryFailedReminder userId st reminderId now).result =
        Except.error RetryError.stateError ∧
      (retryFailedReminder userId st reminderId now).reminders = st.reminders ∧
      (retryFailedReminder userId st reminderId now).emailsSent = []) ∧
    (reminder.status = ReminderStatus.failed →
      (retryFailedReminder userId st reminderId now).result =
        Except.ok (retriedReminder reminder now) ∧
      (retriedReminder reminder now).status = ReminderStatus.sent ∧
      (retriedReminder reminder now).sentAt = some now ∧
      (retryFailedReminder userId st reminderId now).emailsSent = []) := by
  constructor
  · intro hst
    simp only [retryFailedReminder, hrem, hev]
    rw [if_neg (by simp [hown]), if_pos (by simp [hst])]
    exact ⟨rfl, rfl, rfl⟩
  · intro hst
    simp only [retryFailedReminder, hrem, hev]
    rw [if_neg (by simp [hown]), if_neg (by simp [hst])]
    exact ⟨rfl, rfl, rfl, rfl⟩

/-- C7 witness: retrying the concrete failed reminder reclassifies it as
sent without sending an email. -/

theorem C7_retry_requires_failed_witness :
    sampleFailedReminder.status = ReminderStatus.failed ∧
    ((retryFailedReminder 1 retryState 7 3).result =
        Except.ok (retriedReminder sampleFailedReminder 3) ∧
      (retriedReminder sampleFailedReminder 3).status = ReminderStatus.sent ∧
      (retriedReminder sampleFailedReminder 3).sentAt = some 3 ∧
      (retryFailedReminder 1 retryState 7 3).emailsSent = []) :=
  ⟨rfl, (C7_retry_requires_failed 1 retryState 7 3 sampleFailedReminder sampleEvent
    rfl rfl rfl).2 rfl⟩

/-- C8: when the transport fails, the inserted reminder row ends failed with
`errorMessage` taken from the failure description (or the fixed fallback for
an empty one), and the call re-raises as a BadRequest error. -/

theorem C8_notifier_failure (send : EmailMessage → Except String Unit)
    (frontendUrl : String) (userId : Nat) (st : RemState)
    (dto : TriggerReminderDto) (now : Nat) (errMsg : String)
    (speaker : Speaker) (event : Event)
    (hsp : st.speakers.find? (fun s => s.id == dto.speakerId) = some speaker)
    (hev : st.events.find? (fun e => e.id == speaker.eventId) = some event)
    (hown : event.userId = userId)
    (hsend : send (triggerMessage frontendUrl speaker event) = .error errMsg)
    (hfresh : ∀ r ∈ st.reminders, r.id ≠ st.nextReminderId) :
    (triggerReminder send frontendUrl userId st dto now).result =
      Except.error (ApiError.badRequest ("Failed to send reminder email: " ++ errMsg)) ∧
    (triggerReminder send frontendUrl userId st dto now).state.reminders =
      st.reminders ++ [triggerFailedReminder frontendUrl st dto speaker event now errMsg] ∧
    (triggerFailedReminder frontendUrl st dto speaker event now errMsg).status =
      ReminderStatus.failed ∧
    (triggerFailedReminder frontendUrl st dto speaker event now errMsg).errorMessage =
      some (if errMsg.isEmpty then ("Failed to send email") else errMsg) := by
  simp only [triggerReminder, hsp, hev]
  rw [if_neg (by simp [hown]), hsend]
  refine ⟨rfl, ?_, rfl, rfl⟩
  show (triggerFailureOutcome frontendUrl st dto speaker event now errMsg).state.reminders =
    st.reminders ++ [triggerFailedReminder frontendUrl st dto speaker event now errMsg]
  unfold triggerFailureOutcome
  exact map_replace_append_fresh st.reminders _ _ _ hfresh rfl

/-- C8 witness: a concrete failing transport yields the failed row and the
re-raised BadRequest. -/

theorem C8_notifier_failure_witness :
    failSend (triggerMessage ("http://localhost:5173") sampleSpeaker sampleEvent) =
      Except.error ("SMTP connection refused") ∧
    ((triggerReminder failSend ("http://localhost:5173") 1 sampleTriggerState
        sampleTriggerDto 3).result =
      Except.error (ApiError.badRequest
        ("Failed to send reminder email: " ++ "SMTP connection refused")) ∧
    (triggerReminder failSend ("http://localhost:5173") 1 sampleTriggerState
        sampleTriggerDto 3).state.reminders =
      sampleTriggerState.reminders ++
        [triggerFailedReminder ("http://localhost:5173") sampleTriggerState
          sampleTriggerDto sampleSpeaker sampleEvent 3 ("SMTP connection refused")] ∧
    (triggerFailedReminder ("http://localhost:5173") sampleTriggerState
        sampleTriggerDto sampleSpeaker sampleEvent 3 ("SMTP connection refused")).status =
      ReminderStatus.failed ∧
    (triggerFailedReminder ("http://localhost:5173") sampleTriggerState
        sampleTriggerDto sampleSpeaker sampleEvent 3 ("SMTP connection refused")).errorMessage =
      some (if ("SMTP connection refused" : String).isEmpty
        then ("Failed to send email") else ("SMTP connection refused"))) :=
  ⟨rfl, C8_notifier_failure failSend ("http://localhost:5173") 1 sampleTriggerState
    sampleTriggerDto 3 ("SMTP connection refused") sampleSpeaker sampleEvent
    rfl rfl rfl rfl (by simp [sampleTriggerState])⟩

/-- C9: a reminder job for a speaker whose status is complete is skipped:
no reminder row is created, the notifier is not invoked, and the state is
returned unchanged. -/

theorem C9_sweep_skips_complete (send : EmailMessage → Except String Unit)
    (frontendUrl : String) (st : RemState) (speakerId eventId now : Nat)
    (speaker : Speaker)
    (hsp : st.speakers.find? (fun s => s.id == speakerId) = some speaker)
    (hcomplete : speaker.submissionStatus = SpeakerStatus.complete) :
    handleReminderJob send frontendUrl st speakerId eventId now =
      ⟨Except.ok ("Speaker not found or already completed"), st, []⟩ := by
  simp only [handleReminderJob, hsp]
  rw [if_pos hcomplete]

/-- C9 witness: the job on the concrete complete speaker is a no-op. -/

theorem C9_sweep_skips_complete_witness :
    completeSpeaker.submissionStatus = SpeakerStatus.complete ∧
    handleReminderJob okSend ("http://localhost:5173") completeJobState 1 1 3 =
      ⟨Except.ok ("Speaker not found or already completed"), completeJobState, []⟩ :=
  ⟨rfl, C9_sweep_skips_complete okSend ("http://localhost:5173") completeJobState
    1 1 3 completeSpeaker rfl rfl⟩

/-- C10 counterexample: an empty-string subject override is an override the
DTO accepts, yet JS `||` persists the default template subject instead of
the override, so "the overridden subject and body are persisted" fails. -/

theorem C10_counterexample :
    ((triggerReminder okSend ("http://localhost:5173") 1 sampleTriggerState
        emptyOverrideDto 3).state.reminders.map (fun r => r.emailSubject)) =
      [some ("Reminder: Submit your assets for TestEvent")] ∧
    (some ("Reminder: Submit your assets for TestEvent") : Option String) ≠
      some ("") := by
  exact ⟨rfl, by decide⟩

/-- C10 (amended): non-empty subject/body overrides are persisted verbatim
on the new reminder row (empty ones fall back to the default template text),
while the email handed to the notifier is always the fixed template built
from speaker name, event name, deadline and portal URL — independent of the
overrides. -/

theorem C10_overrides_persisted_email_fixed
    (send : EmailMessage → Except String Unit) (frontendUrl : String)
    (userId : Nat) (st : RemState) (dto : TriggerReminderDto) (now : Nat)
    (speaker : Speaker) (event : Event) (subj body : String)
    (hsp : st.speakers.find? (fun s => s.id == dto.speakerId) = some speaker)
    (hev : st.events.find? (fun e => e.id == speaker.eventId) = some event)
    (hown : event.userId = userId)
    (hsubj : dto.emailSubject = some subj) (hsubjne : subj ≠ "")
    (hbody : dto.emailBody = some body) (hbodyne : body ≠ "")
    (hfresh : ∀ r ∈ st.reminders, r.id ≠ st.nextReminderId) :
    (∃ r : Reminder,
      (triggerReminder send frontendUrl userId st dto now).state.reminders =
        st.reminders ++ [r] ∧
      r.emailSubject = some subj ∧ r.emailBody = some body) ∧
    (triggerReminder send frontendUrl userId st dto now).emailsSent =
      [triggerMessage frontendUrl speaker event] ∧
    (∀ dto2 : TriggerReminderDto, dto2.speakerId = dto.speakerId →
      (triggerReminder send frontendUrl userId st dto2 now).emailsSent =
        [triggerMessage frontendUrl speaker event]) := by
  have hsubj2 : orElseStr dto.emailSubject (defaultReminderSubject event) = subj := by
    rw [hsubj]
    exact orElseStr_some_of_ne _ _ hsubjne
  have hbody2 : orElseStr dto.emailBody
      (defaultReminderBody speaker event (portalUrlFor frontendUrl speaker)) = body := by
    rw [hbody]
    exact orElseStr_some_of_ne _ _ hbodyne
  simp only [triggerReminder, hsp, hev]
  rw [if_neg (by simp [hown])]
  cases hsend : send (triggerMessage frontendUrl speaker event) with
  | ok u =>
    refine ⟨⟨triggerSentReminder frontendUrl st dto speaker event now, ?_, ?_, ?_⟩,
      rfl, ?_⟩
    · show (triggerSuccessOutcome frontendUrl st dto speaker event now).state.reminders =
        st.reminders ++ [triggerSentReminder frontendUrl st dto speaker event now]
      unfold triggerSuccessOutcome
      exact map_replace_append_fresh st.reminders _ _ _ hfresh rfl
    · show (triggerSentReminder frontendUrl st dto speaker event now).emailSubject =
        some subj
      unfold triggerSentReminder triggerInsertedReminder
      rw [hsubj2]
    · show (triggerSentReminder frontendUrl st dto speaker event now).emailBody =
        some body
      unfold triggerSentReminder triggerInsertedReminder
      rw [hbody2]
    · intro dto2 hdto2
      simp only [triggerReminder, hdto2, hsp, hev]
      rw [if_neg (by simp [hown]), hsend]
      rfl
  | error errMsg =>
    refine ⟨⟨triggerFailedReminder frontendUrl st dto speaker event now errMsg,
      ?_, ?_, ?_⟩, rfl, ?_⟩
    · show (triggerFailureOutcome frontendUrl st dto speaker event now
          errMsg).state.reminders =
        st.reminders ++ [triggerFailedReminder frontendUrl st dto speaker event now errMsg]
      unfold triggerFailureOutcome
      exact map_replace_append_fresh st.reminders _ _ _ hfresh rfl
    · show (triggerFailedReminder frontendUrl st dto speaker event now
          errMsg).emailSubject = some subj
      unfold triggerFailedReminder triggerInsertedReminder
      rw [hsubj2]
    · show (triggerFailedReminder frontendUrl st dto speaker event now
          errMsg).emailBody = some body
      unfold triggerFailedReminder triggerInsertedReminder
      rw [hbody2]
    · intro dto2 hdto2
      simp only [triggerReminder, hdto2, hsp, hev]
      rw [if_neg (by simp [hown]), hsend]
      rfl

/-- C10 witness: the concrete non-empty overrides are persisted but the
sent email is the fixed template, whatever the overrides were. -/

theorem C10_overrides_persisted_email_fixed_witness :
    overrideDto.emailSubject = some ("Custom subject") ∧
    ((∃ r : Reminder,
      (triggerReminder okSend ("http://localhost:5173") 1 sampleTriggerState
          overrideDto 3).state.reminders =
        sampleTriggerState.reminders ++ [r] ∧
      r.emailSubject = some ("Custom subject") ∧
      r.emailBody = some ("Custom body")) ∧
    (triggerReminder okSend ("http://localhost:5173") 1 sampleTriggerState
        overrideDto 3).emailsSent =
      [triggerMessage ("http://localhost:5173") sampleSpeaker sampleEvent] ∧
    (∀ dto2 : TriggerReminderDto, dto2.speakerId = overrideDto.speakerId →
      (triggerReminder okSend ("http://localhost:5173") 1 sampleTriggerState
          dto2 3).emailsSent =
        [triggerMessage ("http://localhost:5173") sampleSpeaker sampleEvent])) :=
  ⟨rfl, C10_overrides_persisted_email_fixed okSend ("http://localhost:5173") 1
    sampleTriggerState overrideDto 3 sampleSpeaker sampleEvent
    ("Custom subject") ("Custom body") rfl rfl rfl rfl (by decide) rfl (by decide)
    (by simp [sampleTriggerState])⟩

/-- C5: every violated rule contributes its message to the accumulated error
list (so several violations are all listed at once), and a non-empty error
list makes create fail with a ValidationError carrying exactly that list
while the ledger state stays unchanged — no row is inserted. -/

theorem C5_validation_lists_all (st : LedgerState) (speakerId : Nat)
    (dto : CreateSubmissionDto) (requirement : AssetRequirement)
    (hfind : st.assetRequirements.find? (fun ar => ar.id == dto.assetRequirementId) =
      some requirement) :
    (sizeViolation dto requirement = true →
      fileSizeMessage requirement ∈ validateSubmission dto requirement) ∧
    (typeViolation dto requirement = true →
      fileTypeMessage (requirement.acceptedFileTypes.getD []) ∈
        validateSubmission dto requirement) ∧
    (widthViolation dto requirement = true →
      widthMessage (dto.imageWidth.getD 0) (requirement.minImageWidth.getD 0) ∈
        validateSubmission dto requirement) ∧
    (heightViolation dto requirement = true →
      heightMessage (dto.imageHeight.getD 0) (requirement.minImageHeight.getD 0) ∈
        validateSubmission dto requirement) ∧
    (missingDimensionsViolation dto requirement = true →
      dimensionsRequiredMessage requirement ∈ validateSubmission dto requirement) ∧
    (validateSubmission dto requirement ≠ [] →
      createSubmission st speakerId dto =
        Except.error (SubmissionError.validation (validateSubmission dto requirement)) ∧
      applyOp st (LedgerOp.create speakerId dto) = st) := by
  refine ⟨?_, ?_, ?_, ?_, ?_, ?_⟩
  · intro h
    unfold validateSubmission
    apply List.mem_append_left
    unfold sizeErrors
    unfold sizeViolation at h
    rw [if_pos h]
    simp
  · intro h
    unfold validateSubmission
    apply List.mem_append_left
    apply List.mem_append_right
    unfold typeErrors
    unfold typeViolation at h
    cases hat : requirement.acceptedFileTypes with
    | none =>
      rw [hat] at h
      simp at h
    | some ts =>
      rw [hat] at h
      show fileTypeMessage ts ∈
        (if ts.contains (fileExtensionOf dto.fileName) then []
          else [fileTypeMessage ts])
      rw [if_neg (by simpa using h)]
      simp
  · intro h
    unfold validateSubmission
    apply List.mem_append_right
    unfold dimensionErrors
    unfold widthViolation at h
    simp only [Bool.and_eq_true] at h
    obtain ⟨hboth, hcond⟩ := h
    rw [if_pos (by simp [hboth.1, hboth.2])]
    apply List.mem_append_left
    rw [if_pos (by simp [hcond.1, hcond.2])]
    simp
  · intro h
    unfold validateSubmission
    apply List.mem_append_right
    unfold dimensionErrors
    unfold heightViolation at h
    simp only [Bool.and_eq_true] at h
    obtain ⟨hboth, hcond⟩ := h
    rw [if_pos (by simp [hboth.1, hboth.2])]
    apply List.mem_append_right
    rw [if_pos (by simp [hcond.1, hcond.2])]
    simp
  · intro h
    unfold validateSubmission
    apply List.mem_append_right
    unfold dimensionErrors
    unfold missingDimensionsViolation at h
    simp only [Bool.and_eq_true, Bool.not_eq_true'] at h
    obtain ⟨hnot, hmin, hmime⟩ := h
    rw [if_neg (by simp [hnot]), if_pos (by simp [hmin]), if_pos (by simp [hmime])]
    simp
  · intro hne
    have hno : ¬(validateSubmission dto requirement).isEmpty = true := by
      simpa [List.isEmpty_iff] using hne
    have hcreate : createSubmission st speakerId dto =
        Except.error (SubmissionError.validation (validateSubmission dto requirement)) := by
      simp only [createSubmission, hfind]
      rw [if_neg hno]
    refine ⟨hcreate, ?_⟩
    simp only [applyOp]
    rw [hcreate]

/-- C5 witness: `oversizedDto` violates the size and the type rule at once;
both messages are listed and the create is rejected without touching the
ledger. -/

theorem C5_validation_lists_all_witness :
    sizeViolation oversizedDto strictRequirement = true ∧
    typeViolation oversizedDto strictRequirement = true ∧
    fileSizeMessage strictRequirement ∈ validateSubmission oversizedDto strictRequirement ∧
    fileTypeMessage (strictRequirement.acceptedFileTypes.getD []) ∈
      validateSubmission oversizedDto strictRequirement ∧
    validateSubmission oversizedDto strictRequirement ≠ [] ∧
    createSubmission (initState [strictRequirement]) 1 oversizedDto =
      Except.error (SubmissionError.validation
        (validateSubmission oversizedDto strictRequirement)) ∧
    applyOp (initState [strictRequirement]) (LedgerOp.create 1 oversizedDto) =
      initState [strictRequirement] := by
  have h := C5_validation_lists_all (initState [strictRequirement]) 1 oversizedDto
    strictRequirement rfl
  exact ⟨rfl, by decide, h.1 rfl, h.2.1 (by decide), by decide,
    (h.2.2.2.2.2 (by decide)).1, (h.2.2.2.2.2 (by decide)).2⟩

end StageAssets
